import Mathlib

/-!
Verification of the smt-form component library.

The library wraps react-hook-form (an external form-state manager) and zod
(an external schema validator) behind four leaf field components
(TextField, SelectField, CheckboxField, SubmitButton) and a GenericForm
container.  The components are shallowly embedded as pure functions from
their props (and, where they call useFormContext, from the shared form
context) to a render tree.  The external libraries are modelled by a small
form-state machine (FormMachine) reflecting the operations the repository
actually uses: useForm with defaultValues and an optional resolver,
getValues, setValue, reset, handleSubmit, and the formState / control
objects the components read.
-/

/-- A leaf value held at a field path of the form's value object
(strings for text/select fields, booleans for checkboxes). -/
inductive FormValue where
  | str (s : String)
  | bool (b : Bool)
  | num (n : Int)
  deriving DecidableEq, Repr

/-- Association-list lookup of the value bound at a field path
(react-hook-form's `get(values, name)`; `none` models `undefined`). -/
def getPathValue (vs : List (String × FormValue)) (k : String) : Option FormValue :=
  match vs with
  | [] => none
  | (k', v) :: rest => if k' = k then some v else getPathValue rest k

/-- Update (or insert) the value bound at a field path
(react-hook-form's `set(values, name, value)`). -/
def setPathValue (vs : List (String × FormValue)) (k : String) (v : FormValue) :
    List (String × FormValue) :=
  match vs with
  | [] => [(k, v)]
  | (k', v') :: rest =>
      if k' = k then (k, v) :: rest else (k', v') :: setPathValue rest k v

/-- Association-list lookup of the validation error message recorded for a
field path (react-hook-form's `errors[name]?.message`). -/
def lookupErr (es : List (String × String)) (k : String) : Option String :=
  match es with
  | [] => none
  | (k', m) :: rest => if k' = k then some m else lookupErr rest k

/-- What zodResolver hands back to react-hook-form for one candidate value
object: a values object and a path-keyed errors object (in the real
resolver exactly one of the two is non-empty). -/
structure ResolverResult where
  values : List (String × FormValue)
  errors : List (String × String)
  deriving DecidableEq, Repr

/-- Model of an external zod schema: `safeParse` either accepts the
candidate value object (returning the accepted, typed data) or rejects it
with path-keyed issues.  `rejectIssues` records zod's contract that a
failed parse always carries at least one issue. -/
structure ZodSchema where
  safeParse : List (String × FormValue) → Except (List (String × String)) (List (String × FormValue))
  rejectIssues : ∀ vs es, safeParse vs = Except.error es → es ≠ []

/-- Model of `zodResolver(schema)` from @hookform/resolvers/zod: on success
it returns the parsed data and an empty errors object, on failure an empty
values object and the path-keyed issues. -/
def zodResolver (s : ZodSchema) (vs : List (String × FormValue)) : ResolverResult :=
  match s.safeParse vs with
  | Except.ok d => { values := d, errors := [] }
  | Except.error es => { values := [], errors := es }

/-- Model of the react-hook-form instance returned by `useForm`: the
default values fixed at mount (or replaced by a reset-with-values), the
current values, the current validation errors, and the resolver installed
at mount. -/
structure FormMachine where
  defaultValues : List (String × FormValue)
  values : List (String × FormValue)
  errors : List (String × String)
  resolver : Option (List (String × FormValue) → ResolverResult)

/-- `form.getValues()`. -/
def FormMachine.getValues (m : FormMachine) : List (String × FormValue) :=
  m.values

/-- `form.setValue(name, value)`. -/
def FormMachine.setValue (m : FormMachine) (name : String) (v : FormValue) : FormMachine :=
  { m with values := setPathValue m.values name v }

/-- `form.reset(values?)`: with values, they become both the current and
the new default values (react-hook-form replaces defaultValues unless
keepDefaultValues is set); with no argument the form returns to its
default values.  Errors are cleared either way. -/
def FormMachine.reset (m : FormMachine) (vs : Option (List (String × FormValue))) : FormMachine :=
  match vs with
  | some v => { m with values := v, defaultValues := v, errors := [] }
  | none => { m with values := m.defaultValues, errors := [] }

/-- `form.handleSubmit(onSubmit)` fired on a submit event: run the
resolver on the current values; when the errors object is empty, invoke
onSubmit with the resolver's values (modelled by returning `some data`),
otherwise store the errors and do not invoke onSubmit (`none`).  With no
resolver installed there are no registered validation rules, so onSubmit
receives the current values. -/
def FormMachine.handleSubmit (m : FormMachine) :
    Option (List (String × FormValue)) × FormMachine :=
  match m.resolver with
  | none => (some m.values, { m with errors := [] })
  | some r =>
      let res := r m.values
      if res.errors = [] then (some res.values, { m with errors := [] })
      else (none, { m with errors := res.errors })

/-- The per-field view the shared form context (the `Form`/FormProvider
wrapper plus `control`) offers to a leaf component: current values and
current errors.  `useFormContext().control` and `FormField`'s render-prop
`field`, as well as `FormMessage`, read exactly this. -/
structure FormContextState where
  values : List (String × FormValue)
  errors : List (String × String)
  deriving DecidableEq, Repr

/-- Props of GenericForm that reach the form machinery (`onSubmit`,
`children` and `className` are plumbing around it). -/
structure GenericFormProps where
  schema : Option ZodSchema
  initialValues : List (String × FormValue)

/-- GenericForm's call to `useForm({ defaultValues: initialValues,
resolver: schema ? zodResolver(schema) : undefined })`. -/
def GenericForm.mount (p : GenericFormProps) : FormMachine :=
  { defaultValues := p.initialValues
    values := p.initialValues
    errors := []
    resolver :=
      match p.schema with
      | some s => some (zodResolver s)
      | none => none }

/-- The form context that `<Form {...form}>` provides to the field
components below GenericForm. -/
def GenericForm.context (m : FormMachine) : FormContextState :=
  { values := m.values, errors := m.errors }

/-- The slice of `form.formState` the handle exposes (the repository's
README reads `isValid` and `errors` from it; errors are what the claims
are about). -/
structure FormStateView where
  errors : List (String × String)
  deriving DecidableEq, Repr

/-- `form.formState` as seen through the handle. -/
def formStateOf (m : FormMachine) : FormStateView :=
  { errors := m.errors }

/-- The object GenericForm passes to `useImperativeHandle`: getValues,
reset and setValue delegate to the form instance (state-changing
operations return the machine they produce), and formState, control and
the whole form instance are exposed as well. -/
structure GenericFormHandle where
  getValues : Unit → List (String × FormValue)
  reset : Option (List (String × FormValue)) → FormMachine
  setValue : String → FormValue → FormMachine
  formState : FormStateView
  control : FormContextState
  form : FormMachine

/-- Building the imperative handle over the current form instance, field
for field as in GenericForm's `useImperativeHandle` callback. -/
def mkHandle (m : FormMachine) : GenericFormHandle :=
  { getValues := fun _ => m.getValues
    reset := fun vs => m.reset vs
    setValue := fun n v => m.setValue n v
    formState := formStateOf m
    control := GenericForm.context m
    form := m }

/-- The keys of the object literal GenericForm hands to
`useImperativeHandle` (GenericForm.tsx), in source order; they coincide
with the members of the `GenericFormRef` interface (types/index.ts). -/
def genericFormHandleFields : List String :=
  ["getValues", "reset", "setValue", "formState", "control", "form"]

/-- Model of the `cn(...)` helper (clsx + tailwind-merge): joins the class
fragments that are present with single spaces. -/
def cn (xs : List (Option String)) : String :=
  String.intercalate " " (xs.filterMap id)

/-- A rendered `<FormLabel>`: its text and whether the required `*` marker
is shown next to it. -/
structure LabelNode where
  text : String
  requiredMark : Bool
  deriving DecidableEq, Repr

/-- The rendered `<Input>` element of a TextField. -/
structure InputNode where
  typ : String
  value : Option FormValue
  placeholder : String
  id : String
  disabled : Bool
  className : String
  deriving DecidableEq, Repr

/-- Props of TextField (fields the render output depends on; `action` and
`icon` are modelled by whether an action callback is present). -/
structure TextFieldProps where
  name : String
  label : Option String := none
  typ : String := "text"
  placeholder : String := "Enter value"
  required : Bool := false
  hasAction : Bool := false
  loading : Bool := false
  disabled : Bool := false
  className : Option String := none
  inputClass : Option String := none
  deriving DecidableEq, Repr

/-- The tree TextField renders: optional label, the input, the loading
spinner, the optional action button, and the `<FormMessage>` slot (the
error text for the bound path, or nothing). -/
structure TextFieldRender where
  itemClass : Option String
  label : Option LabelNode
  input : InputNode
  spinner : Bool
  actionButton : Bool
  message : Option String
  deriving DecidableEq, Repr

/-- In a JavaScript template literal an undefined fragment prints as the
text "undefined"; TextField builds the input class with
`w-full ${inputClass} ${action ? pr-12 : empty}`. -/
def templateOpt (s : Option String) : String :=
  match s with
  | some v => v
  | none => "undefined"

/-- TextField: reads `control` from `useFormContext()`, binds `FormField`
to `name`, and renders label (with required marker), a controlled input
carrying `field.value`, optional spinner and action button, and
`FormMessage`. -/
def TextField.render (ctx : FormContextState) (p : TextFieldProps) : TextFieldRender :=
  { itemClass := p.className
    label := p.label.map (fun l => { text := l, requiredMark := p.required })
    input :=
      { typ := p.typ
        value := getPathValue ctx.values p.name
        placeholder := p.placeholder
        id := p.name
        disabled := p.disabled
        className :=
          "w-full " ++ templateOpt p.inputClass ++ " " ++
            (if p.hasAction then "pr-12" else "") }
    spinner := p.loading
    actionButton := p.hasAction
    message := lookupErr ctx.errors p.name }

/-- One option of a SelectField, as declared in types/index.ts. -/
structure SelectOption where
  value : String
  text : String
  disabled : Option Bool := none
  deriving DecidableEq, Repr

/-- Props of SelectField. -/
structure SelectFieldProps where
  name : String
  label : Option String := none
  options : List SelectOption
  placeholder : String := "Select an option"
  required : Bool := false
  disabled : Bool := false
  className : Option String := none
  deriving DecidableEq, Repr

/-- A rendered `<SelectItem>`. -/
structure SelectItemNode where
  value : String
  text : String
  disabled : Option Bool
  deriving DecidableEq, Repr

/-- The tree SelectField renders. -/
structure SelectFieldRender where
  itemClass : Option String
  label : Option LabelNode
  value : Option FormValue
  disabled : Bool
  placeholder : String
  items : List SelectItemNode
  message : Option String
  deriving DecidableEq, Repr

/-- SelectField: reads `control` from `useFormContext()`, binds
`FormField` to `name`, renders the `<Select>` carrying `field.value`, one
`<SelectItem>` per option in order, and `FormMessage`. -/
def SelectField.render (ctx : FormContextState) (p : SelectFieldProps) : SelectFieldRender :=
  { itemClass := p.className
    label := p.label.map (fun l => { text := l, requiredMark := p.required })
    value := getPathValue ctx.values p.name
    disabled := p.disabled
    placeholder := p.placeholder
    items := p.options.map (fun o =>
      { value := o.value, text := o.text, disabled := o.disabled })
    message := lookupErr ctx.errors p.name }

/-- Props of CheckboxField (BaseFieldProps). -/
structure CheckboxFieldProps where
  name : String
  label : Option String := none
  required : Bool := false
  disabled : Bool := false
  className : Option String := none
  deriving DecidableEq, Repr

/-- The tree CheckboxField renders. -/
structure CheckboxFieldRender where
  itemClass : String
  checked : Option FormValue
  disabled : Bool
  required : Bool
  label : Option LabelNode
  message : Option String
  deriving DecidableEq, Repr

/-- CheckboxField: reads `control` from `useFormContext()`, binds
`FormField` to `name`, renders the `<Checkbox>` carrying `field.value` as
its checked state, the optional label with required marker, and
`FormMessage`. -/
def CheckboxField.render (ctx : FormContextState) (p : CheckboxFieldProps) : CheckboxFieldRender :=
  { itemClass := cn [some "flex flex-row items-start space-x-3 space-y-0", p.className]
    checked := getPathValue ctx.values p.name
    disabled := p.disabled
    required := p.required
    label := p.label.map (fun l => { text := l, requiredMark := p.required })
    message := lookupErr ctx.errors p.name }

/-- Props of SubmitButton, with the source's defaults. -/
structure SubmitButtonProps where
  label : String := "Submit"
  loadingLabel : String := "Submitting..."
  isLoading : Bool := false
  disabled : Bool := false
  width : String := "full"
  className : Option String := none
  deriving DecidableEq, Repr

/-- The `<Button>` SubmitButton renders. -/
structure SubmitButtonRender where
  typ : String
  disabled : Bool
  text : String
  spinner : Bool
  className : String
  deriving DecidableEq, Repr

/-- SubmitButton: a props-only component (it never calls useFormContext);
renders a submit-typed button, disabled when loading or disabled, showing
loadingLabel plus a spinner while loading and label otherwise. -/
def SubmitButton.render (p : SubmitButtonProps) : SubmitButtonRender :=
  { typ := "submit"
    disabled := p.isLoading || p.disabled
    text := if p.isLoading then p.loadingLabel else p.label
    spinner := p.isLoading
    className :=
      cn [some "transition-all duration-200",
          some (if p.width = "full" then "w-full" else "w-auto"),
          p.className] }

/-- One client-visible operation on a mounted GenericForm: a setValue or
reset through the imperative handle, or a re-render of the component
(useForm keeps its state in a ref, so a re-render recomputes the render
output and the handle from the same persistent form instance and changes
no form state). -/
inductive FormOp where
  | setVal (name : String) (v : FormValue)
  | resetVals (vs : Option (List (String × FormValue)))
  | render
  deriving DecidableEq, Repr

/-- The form-state transition of one operation. -/
def stepOp (m : FormMachine) : FormOp → FormMachine
  | FormOp.setVal n v => m.setValue n v
  | FormOp.resetVals vs => m.reset vs
  | FormOp.render => m

/-- Run a sequence of operations on a mounted form. -/
def runOps (m : FormMachine) (ops : List FormOp) : FormMachine :=
  ops.foldl stepOp m

/-- An operation keeps the form's default values unless it is a
reset-with-values (react-hook-form replaces defaultValues then). -/
def FormOp.keepsDefaults : FormOp → Bool
  | FormOp.resetVals (some _) => false
  | _ => true

/-! Helper lemmas about traces of form operations. -/

theorem runOps_cons (m : FormMachine) (o : FormOp) (ops : List FormOp) :
    runOps m (o :: ops) = runOps (stepOp m o) ops := rfl

theorem stepOp_resolver (m : FormMachine) (o : FormOp) :
    (stepOp m o).resolver = m.resolver := by
  cases o with
  | setVal n v => rfl
  | resetVals vs => cases vs <;> rfl
  | render => rfl

theorem runOps_resolver (ops : List FormOp) (m : FormMachine) :
    (runOps m ops).resolver = m.resolver := by
  induction ops generalizing m with
  | nil => rfl
  | cons o rest ih => rw [runOps_cons, ih, stepOp_resolver]

theorem stepOp_defaultValues (m : FormMachine) (o : FormOp)
    (h : o.keepsDefaults = true) :
    (stepOp m o).defaultValues = m.defaultValues := by
  cases o with
  | setVal n v => rfl
  | resetVals vs =>
      cases vs with
      | none => rfl
      | some v => simp [FormOp.keepsDefaults] at h
  | render => rfl

theorem runOps_defaultValues (ops : List FormOp) (m : FormMachine)
    (h : ops.all FormOp.keepsDefaults = true) :
    (runOps m ops).defaultValues = m.defaultValues := by
  induction ops generalizing m with
  | nil => rfl
  | cons o rest ih =>
      simp only [List.all_cons, Bool.and_eq_true] at h
      rw [runOps_cons, ih (stepOp m o) h.2, stepOp_defaultValues m o h.1]

/-- Claim C1: for every field component bound to a field path, the
rendered field value (TextField's input value, SelectField's select
value, CheckboxField's checked state) is a pure function of the current
form-state snapshot at that field path: two renders from snapshots that
agree at the bound path produce the same rendered value, with no other
hidden input. -/
theorem rendered_value_pure_of_snapshot (c1 c2 : FormContextState)
    (pt : TextFieldProps) (ps : SelectFieldProps) (pc : CheckboxFieldProps)
    (ht : getPathValue c1.values pt.name = getPathValue c2.values pt.name)
    (hs : getPathValue c1.values ps.name = getPathValue c2.values ps.name)
    (hc : getPathValue c1.values pc.name = getPathValue c2.values pc.name) :
    (TextField.render c1 pt).input.value = (TextField.render c2 pt).input.value ∧
    (SelectField.render c1 ps).value = (SelectField.render c2 ps).value ∧
    (CheckboxField.render c1 pc).checked = (CheckboxField.render c2 pc).checked :=
  ⟨ht, hs, hc⟩

/-- Two distinct form-state snapshots that agree at the path "email". -/
def snapA : FormContextState :=
  { values := [("email", FormValue.str "ada@acm.org"), ("age", FormValue.num 36)]
    errors := [] }

/-- Second snapshot for the purity witness: same value at "email",
different elsewhere and different errors. -/
def snapB : FormContextState :=
  { values := [("email", FormValue.str "ada@acm.org"), ("ok", FormValue.bool true)]
    errors := [("age", "too low")] }

theorem rendered_value_pure_of_snapshot_witness :
    getPathValue snapA.values "email" = getPathValue snapB.values "email" ∧
    snapA ≠ snapB ∧
    (TextField.render snapA { name := "email" }).input.value
      = (TextField.render snapB { name := "email" }).input.value ∧
    (SelectField.render snapA { name := "email", options := [] }).value
      = (SelectField.render snapB { name := "email", options := [] }).value ∧
    (CheckboxField.render snapA { name := "email" }).checked
      = (CheckboxField.render snapB { name := "email" }).checked := by
  have h := rendered_value_pure_of_snapshot snapA snapB { name := "email" }
    { name := "email", options := [] } { name := "email" }
    (by decide) (by decide) (by decide)
  exact ⟨by decide, by decide, h.1, h.2.1, h.2.2⟩

/-- Claim C2 (counterexample): the imperative handle does not consist of
exactly the four claimed operations — the object GenericForm registers
with useImperativeHandle (and the GenericFormRef interface) also exposes
the form's control object and the whole form instance. -/
theorem handle_exposes_control_and_form :
    "control" ∈ genericFormHandleFields ∧
    "form" ∈ genericFormHandleFields ∧
    "control" ∉ ["getValues", "reset", "setValue", "formState"] ∧
    "form" ∉ ["getValues", "reset", "setValue", "formState"] := by
  decide

/-- Claim C2 (amended): GenericForm forwards initialValues to the form
hook as default values and installs zodResolver(schema) exactly when a
schema is supplied; the handle's getValues / reset / setValue delegate to
the form instance and formState exposes its validation state — and in
addition the handle exposes the control object and the full form
instance. -/
theorem genericForm_forwards_and_handle_delegates (p : GenericFormProps)
    (m : FormMachine) (vs : Option (List (String × FormValue)))
    (n : String) (v : FormValue) :
    (GenericForm.mount p).defaultValues = p.initialValues ∧
    (GenericForm.mount p).values = p.initialValues ∧
    (GenericForm.mount p).resolver = Option.map zodResolver p.schema ∧
    (mkHandle m).getValues () = m.getValues ∧
    (mkHandle m).reset vs = m.reset vs ∧
    (mkHandle m).setValue n v = m.setValue n v ∧
    (mkHandle m).formState = formStateOf m ∧
    (mkHandle m).control = GenericForm.context m ∧
    (mkHandle m).form = m ∧
    genericFormHandleFields
      = ["getValues", "reset", "setValue", "formState", "control", "form"] := by
  refine ⟨rfl, rfl, ?_, rfl, rfl, rfl, rfl, rfl, rfl, rfl⟩
  cases hp : p.schema <;> simp [GenericForm.mount, hp]

/-- Claim C3 (counterexample): the submit button does not read its field
state from the shared form context — its render function takes no form
context at all (the source never calls useFormContext there), and its
rendered disabled state varies with its own props alone. -/
theorem submitButton_state_from_props :
    SubmitButton.render { disabled := true } ≠ SubmitButton.render {} ∧
    (SubmitButton.render { disabled := true }).disabled
      ≠ (SubmitButton.render {}).disabled := by
  decide

/-- Claim C3 (amended): the text, select and checkbox field components
read their field state (bound value and validation message) from the
shared form context rather than from their own props, while the submit
button derives its state from its own props; all four render markup with
conditional styling. -/
theorem leaf_fields_read_shared_context (ctx : FormContextState)
    (pt : TextFieldProps) (ps : SelectFieldProps) (pc : CheckboxFieldProps)
    (pb : SubmitButtonProps) :
    (TextField.render ctx pt).input.value = getPathValue ctx.values pt.name ∧
    (TextField.render ctx pt).message = lookupErr ctx.errors pt.name ∧
    (SelectField.render ctx ps).value = getPathValue ctx.values ps.name ∧
    (SelectField.render ctx ps).message = lookupErr ctx.errors ps.name ∧
    (CheckboxField.render ctx pc).checked = getPathValue ctx.values pc.name ∧
    (CheckboxField.render ctx pc).message = lookupErr ctx.errors pc.name ∧
    (SubmitButton.render pb).disabled = (pb.isLoading || pb.disabled) ∧
    (SubmitButton.render pb).className
      = cn [some "transition-all duration-200",
            some (if pb.width = "full" then "w-full" else "w-auto"),
            pb.className] ∧
    (CheckboxField.render ctx pc).itemClass
      = cn [some "flex flex-row items-start space-x-3 space-y-0", pc.className] ∧
    (TextField.render ctx pt).input.className
      = "w-full " ++ templateOpt pt.inputClass ++ " "
          ++ (if pt.hasAction then "pr-12" else "") :=
  ⟨rfl, rfl, rfl, rfl, rfl, rfl, rfl, rfl, rfl, rfl⟩

/-- Claim C7: the imperative handle is stable — a re-render of the
mounted form changes no form state, and the handle rebuilt after any
sequence of operations and re-renders still reads and writes that same
underlying form state. -/
theorem handle_stable_across_rerenders (m : FormMachine) (ops : List FormOp) :
    runOps m (ops ++ [FormOp.render]) = runOps m ops ∧
    (mkHandle (runOps m ops)).getValues () = (runOps m ops).values ∧
    (∀ n v, (mkHandle (runOps m ops)).setValue n v = (runOps m ops).setValue n v) ∧
    (∀ vs, (mkHandle (runOps m ops)).reset vs = (runOps m ops).reset vs) ∧
    (mkHandle (runOps m ops)).form = runOps m ops := by
  refine ⟨?_, rfl, fun n v => rfl, fun vs => rfl, rfl⟩
  rw [runOps, List.foldl_append]
  rfl

/-- Claim C9: SubmitButton renders a button of type submit, disabled
exactly when isLoading or the disabled prop is true, showing loadingLabel
while loading and label otherwise, with defaults "Submit" and
"Submitting...". -/
theorem submitButton_render_contract (p : SubmitButtonProps) :
    (SubmitButton.render p).typ = "submit" ∧
    (SubmitButton.render p).disabled = (p.isLoading || p.disabled) ∧
    (SubmitButton.render p).text
      = (if p.isLoading then p.loadingLabel else p.label) ∧
    ({} : SubmitButtonProps).label = "Submit" ∧
    ({} : SubmitButtonProps).loadingLabel = "Submitting..." :=
  ⟨rfl, rfl, rfl, rfl, rfl⟩

/-- Claim C10: SelectField renders exactly one item per element of its
options array, in the array's order, each carrying that option's value,
display text and disabled flag. -/
theorem selectField_items_match_options (ctx : FormContextState)
    (p : SelectFieldProps) (i : Nat) :
    (SelectField.render ctx p).items.length = p.options.length ∧
    (SelectField.render ctx p).items[i]?
      = p.options[i]?.map (fun o =>
          { value := o.value, text := o.text, disabled := o.disabled }) := by
  constructor
  · simp [SelectField.render]
  · simp [SelectField.render, List.getElem?_map]

/-- Issue list of a concrete demo schema requiring a non-empty string at
the path "name" (the shape of `z.string().min(1, message)` inside
`z.object`). -/
def nameIssues (vs : List (String × FormValue)) : List (String × String) :=
  match getPathValue vs "name" with
  | some (FormValue.str s) =>
      if s = "" then [("name", "Name is required")] else []
  | _ => [("name", "Name is required")]

/-- The demo schema packaged as a ZodSchema. -/
def nameRequiredSchema : ZodSchema where
  safeParse := fun vs =>
    if nameIssues vs = [] then Except.ok vs else Except.error (nameIssues vs)
  rejectIssues := by
    intro vs es h
    dsimp only at h
    by_cases hc : nameIssues vs = []
    · rw [if_pos hc] at h
      simp at h
    · rw [if_neg hc] at h
      injection h with h2
      exact h2 ▸ hc

/-- Initial values used by the trace witnesses. -/
def demoInitial : List (String × FormValue) := [("name", FormValue.str "Ada")]

/-- A GenericForm mounted without a schema. -/
def demoNoSchema : GenericFormProps :=
  { schema := none, initialValues := demoInitial }

/-- A GenericForm mounted with the demo schema and accepting initial
values. -/
def demoAccept : GenericFormProps :=
  { schema := some nameRequiredSchema, initialValues := demoInitial }

/-- A GenericForm mounted with the demo schema and rejected initial
values (empty name). -/
def demoReject : GenericFormProps :=
  { schema := some nameRequiredSchema
    initialValues := [("name", FormValue.str "")] }

/-- Claim C4: invoking the imperative handle's reset operation with no
argument restores the form's values to the initialValues supplied to
GenericForm, after any run of setValue operations, re-renders and
argument-less resets (a reset-with-values would replace the stored
default values). -/
theorem reset_restores_initialValues (p : GenericFormProps) (ops : List FormOp)
    (h : ops.all FormOp.keepsDefaults = true) :
    ((mkHandle (runOps (GenericForm.mount p) ops)).reset none).values
      = p.initialValues := by
  show ((runOps (GenericForm.mount p) ops).reset none).values = p.initialValues
  simp only [FormMachine.reset]
  rw [runOps_defaultValues ops _ h]
  rfl

theorem reset_restores_initialValues_witness :
    ([FormOp.setVal "name" (FormValue.str "Bob"),
      FormOp.render].all FormOp.keepsDefaults = true) ∧
    ((mkHandle (runOps (GenericForm.mount demoNoSchema)
        [FormOp.setVal "name" (FormValue.str "Bob"), FormOp.render])).reset
        none).values
      = demoNoSchema.initialValues ∧
    (runOps (GenericForm.mount demoNoSchema)
        [FormOp.setVal "name" (FormValue.str "Bob"), FormOp.render]).values
      ≠ demoNoSchema.initialValues :=
  ⟨by decide,
   reset_restores_initialValues demoNoSchema
     [FormOp.setVal "name" (FormValue.str "Bob"), FormOp.render] (by decide),
   by decide⟩

/-- Claim C5: on submission the onSubmit handler is invoked exactly when
the installed schema accepts the current values, and it is invoked with
the schema's accepted (validated) data; on rejection it is not invoked. -/
theorem submit_calls_onSubmit_iff_schema_accepts (s : ZodSchema)
    (m : FormMachine) (hres : m.resolver = some (zodResolver s))
    (d : List (String × FormValue)) :
    (m.handleSubmit.fst = some d ↔ s.safeParse m.values = Except.ok d) ∧
    (∀ es, s.safeParse m.values = Except.error es → m.handleSubmit.fst = none) := by
  cases hp : s.safeParse m.values with
  | ok data =>
      constructor
      · simp [FormMachine.handleSubmit, hres, zodResolver, hp]
      · intro es hes
        simp at hes
  | error es =>
      have hne := s.rejectIssues m.values es hp
      constructor
      · simp [FormMachine.handleSubmit, hres, zodResolver, hp, hne]
      · intro es' hes
        simp [FormMachine.handleSubmit, hres, zodResolver, hp, hne]

theorem submit_calls_onSubmit_iff_schema_accepts_witness :
    ((GenericForm.mount demoAccept).resolver
        = some (zodResolver nameRequiredSchema)) ∧
    nameRequiredSchema.safeParse (GenericForm.mount demoAccept).values
      = Except.ok demoInitial ∧
    (GenericForm.mount demoAccept).handleSubmit.fst = some demoInitial :=
  ⟨rfl, by rfl,
   (submit_calls_onSubmit_iff_schema_accepts nameRequiredSchema
      (GenericForm.mount demoAccept) rfl demoInitial).1.mpr (by rfl)⟩

/-- Claim C6: when the schema rejects, the resolver hands the form a
non-empty set of path-keyed error messages and an empty values object
(never both an accepted value and errors), onSubmit is not invoked, and a
field component bound to a rejected path renders that path's error text
in its message slot. -/
theorem schema_reject_errors_and_message (s : ZodSchema) (m : FormMachine)
    (hres : m.resolver = some (zodResolver s))
    (es : List (String × String)) (hp : s.safeParse m.values = Except.error es)
    (p : TextFieldProps) (msg : String)
    (hmsg : lookupErr es p.name = some msg) :
    es ≠ [] ∧
    (zodResolver s m.values).values = [] ∧
    (zodResolver s m.values).errors = es ∧
    m.handleSubmit.fst = none ∧
    (TextField.render (GenericForm.context m.handleSubmit.snd) p).message
      = some msg := by
  have hne := s.rejectIssues m.values es hp
  refine ⟨hne, ?_, ?_, ?_, ?_⟩ <;>
    simp [zodResolver, FormMachine.handleSubmit, hres, hp, hne,
      TextField.render, GenericForm.context, hmsg]

theorem schema_reject_errors_and_message_witness :
    ((GenericForm.mount demoReject).resolver
        = some (zodResolver nameRequiredSchema)) ∧
    nameRequiredSchema.safeParse (GenericForm.mount demoReject).values
      = Except.error [("name", "Name is required")] ∧
    lookupErr [("name", "Name is required")] "name" = some "Name is required" ∧
    (GenericForm.mount demoReject).handleSubmit.fst = none ∧
    (TextField.render
        (GenericForm.context (GenericForm.mount demoReject).handleSubmit.snd)
        { name := "name" }).message
      = some "Name is required" := by
  have h := schema_reject_errors_and_message nameRequiredSchema
    (GenericForm.mount demoReject) rfl [("name", "Name is required")]
    (by rfl) { name := "name" } "Name is required" (by decide)
  exact ⟨rfl, by rfl, by decide, h.2.2.2.1, h.2.2.2.2⟩

/-- Claim C8: the schema prop is optional — with no schema no resolver is
installed, and submission invokes onSubmit with the current form values
without any schema validation. -/
theorem no_schema_submit_passes_values (p : GenericFormProps)
    (h : p.schema = none) (ops : List FormOp) :
    (GenericForm.mount p).resolver = none ∧
    (runOps (GenericForm.mount p) ops).handleSubmit.fst
      = some (runOps (GenericForm.mount p) ops).values := by
  have hres : (GenericForm.mount p).resolver = none := by
    simp [GenericForm.mount, h]
  have hr2 : (runOps (GenericForm.mount p) ops).resolver = none := by
    rw [runOps_resolver, hres]
  exact ⟨hres, by simp [FormMachine.handleSubmit, hr2]⟩

theorem no_schema_submit_passes_values_witness :
    demoNoSchema.schema = none ∧
    (runOps (GenericForm.mount demoNoSchema)
        [FormOp.setVal "name" (FormValue.str "Bob")]).handleSubmit.fst
      = some [("name", FormValue.str "Bob")] := by
  have h := no_schema_submit_passes_values demoNoSchema rfl
    [FormOp.setVal "name" (FormValue.str "Bob")]
  refine ⟨rfl, ?_⟩
  rw [h.2]
  decide
